import Mathlib

/-
Verification development for the BlockBase repository (src/Collections.ts).

The embedding models the two classes of src/Collections.ts — `Collection`
(a cache node) and `RealTimeDB` (the store controller) — as pure Lean data
plus explicit state-passing functions.  Asynchronous methods are modelled as
total functions that run each awaited step to completion ("quiescent"
semantics); the observable order of awaited steps is recorded in an explicit
trace of `Action`s, so that claims about awaiting barriers, issuing requests
and the order of field writes can be stated and decided.

HTTP bodies travel through `JSON.parse`/`JSON.stringify` in the source; the
model works directly with parsed JSON values (`JsValue`), so a response body
is a `JsValue` and a PUT payload is recorded as the `Option JsValue` that was
serialized (`none` models `undefined`, in which case the source's
`if (body)` guard skips attaching a body).  JSON arrays are not modelled:
no claim involves them.  `Date.now()` is an explicit `now : Int` parameter,
frozen for the duration of one method call.
-/

namespace BlockBase

/-- Parsed JSON values as produced by `JSON.parse`: the scalar cases
(string, number, boolean, null) and non-null objects as association lists
of direct children. -/
inductive JsValue where
  | str (s : String)
  | num (n : Int)
  | bool (b : Bool)
  | null
  | obj (fields : List (String × JsValue))


/-- Observable steps of an asynchronous method, in order of occurrence:
awaiting a readiness barrier, issuing a GET or PUT through
`RealTimeDB.sendRequest`, and assigning the `cache` / `expiresAt` fields of
a node. -/
inductive Action where
  | awaitBarrier (path : String)
  | getReq (path : String)
  | putReq (path : String) (body : Option JsValue)
  | writeCache (path : String) (v : JsValue)
  | writeExpires (path : String) (t : Int)


/-- The status/body pair returned by the transport (`http.request`), with the
body already parsed. -/
structure Response where
  status : Nat
  body : JsValue


/-- The remote store, as observed through GET requests: a mapping from
request path to response.  PUT responses are never examined by
src/Collections.ts (`updateDatabase` discards them), so they are not
modelled. -/
def Remote : Type := String → Response

/-- State of one `Collection` (cache node).  `cache` and `expiresAt` are
`Option`s because both fields start out `undefined` until first assigned
(TypeScript leaves them unset when the constructor takes the fetch branch).
`readyPreResolved` records which promise the constructor stored in
`this.ready`: `Promise.resolve()` (value supplied, `true`) or the tracked
`this.updateCache()` call (`false`). -/
structure Collection where
  path : String
  cache : Option JsValue
  expiresAt : Option Int
  readyPreResolved : Bool


/-- Errors thrown by `RealTimeDB.initialize` on a non-200 validation
response, by status: 404, 401, and the default case carrying the parsed
response body. -/
inductive InitError where
  | notFound (databaseName : String)
  | permissionDenied (databaseName : String)
  | validation (body : JsValue)


/-- State of the controller's readiness barrier (`readyPromise`).  The
source's `new Promise((resolve) => this.readyResolver = resolve)` captures
only a resolver, so the `rejected` state is expressible but never produced
by any modelled operation. -/
inductive BarrierState where
  | pending
  | resolved
  | rejected (e : InitError)


/-- A value stored in `RealTimeDB.cachedCollections`.  The field is typed
`Map<string, Collection>` in the source, but `RealTimeDB.get` actually
stores either a `CollectionMap` (object result) or the raw scalar body, so
the entry type is this union. -/
inductive DBEntry where
  | colls (m : List (String × Collection))
  | data (v : JsValue)


/-- State of the `RealTimeDB` controller. -/
structure RealTimeDB where
  databaseName : String
  databaseSecret : String
  ttl : Int
  readyBarrier : BarrierState
  cachedCollections : List (String × DBEntry)

/-- JavaScript `>` between a number and a possibly-`undefined` field:
`Date.now() > undefined` evaluates to `false` (NaN comparison), so the
`none` case is `false`. -/
def jsGt (now : Int) : Option Int → Bool
  | some t => decide (now > t)
  | none => false

/-- JavaScript truthiness of the optional `cacheData` constructor argument
(`if (cacheData)`): `undefined`, `null`, `false`, `0` and `""` are falsy;
every object is truthy. -/
def truthy : Option JsValue → Bool
  | none => false
  | some (.str s) => !(s == "")
  | some (.num n) => !(n == 0)
  | some (.bool b) => b
  | some .null => false
  | some (.obj _) => true

/-- Number of GET requests in a trace. -/
def countGetReq (tr : List Action) : Nat :=
  tr.countP fun a => match a with | .getReq _ => true | _ => false

/-- Number of barrier awaits in a trace. -/
def countAwait (tr : List Action) : Nat :=
  tr.countP fun a => match a with | .awaitBarrier _ => true | _ => false

/-- Lookup in the `cachedCollections` map (`Map.has` / `Map.get`). -/
def lookupEntry (m : List (String × DBEntry)) (path : String) : Option DBEntry :=
  match m with
  | [] => none
  | (k, v) :: rest => if k = path then some v else lookupEntry rest path

/-- `Map.set` on `cachedCollections`: replace the entry for the key if
present, otherwise append it. -/
def mapSet (m : List (String × DBEntry)) (path : String) (entry : DBEntry) :
    List (String × DBEntry) :=
  match m with
  | [] => [(path, entry)]
  | (k, v) :: rest =>
      if k = path then (k, entry) :: rest else (k, v) :: mapSet rest path entry

/-- URL built by `RealTimeDB.sendRequest` (query-string options omitted;
no claim depends on them). -/
def RealTimeDB.requestUri (db : RealTimeDB) (path : String) : String :=
  "https://" ++ db.databaseName ++ ".firebaseio.com/" ++ path ++ ".json?auth=" ++
    db.databaseSecret

/-- `Collection.updateCache`: GET this node's path through the owning
controller's `sendRequest`; on a non-200 status return without touching any
field; on 200, assign `this.cache = body` (the source's
`typeof body === "object" && body !== null` branch assigns `body` in both
arms, so the conditional collapses) and then
`this.expiresAt = Date.now() + this.db.ttl`.  The trace records the request
and, in source order, the assignment to `cache` followed by the assignment
to `expiresAt`. -/
def Collection.updateCache (db : RealTimeDB) (remote : Remote) (now : Int)
    (c : Collection) : Collection × List Action :=
  let response := remote c.path
  if response.status ≠ 200 then
    (c, [.getReq c.path])
  else
    let body := response.body
    (⟨c.path, some body, some (now + db.ttl), c.readyPreResolved⟩,
     [.getReq c.path, .writeCache c.path body, .writeExpires c.path (now + db.ttl)])

/-- `Collection.updateDatabase`: PUT `JSON.stringify(this.cache)` to this
node's path.  The payload is the current cache (`none` when the field is
still `undefined`, in which case `sendRequest`'s `if (body)` guard attaches
no body).  The response of `sendRequest` is awaited but discarded — its
status is never examined — so the model returns only the trace. -/
def Collection.updateDatabase (c : Collection) : List Action :=
  [.putReq c.path c.cache]

/-- `Collection.get(updateCache = false)`: await `this.ready`, then if
`Date.now() > this.expiresAt || updateCache` run `this.updateCache()`, and
return `this.cache`. -/
def Collection.get (db : RealTimeDB) (remote : Remote) (now : Int)
    (c : Collection) (updateCache : Bool) :
    Collection × Option JsValue × List Action :=
  if jsGt now c.expiresAt || updateCache then
    let r := Collection.updateCache db remote now c
    (r.1, r.1.cache, .awaitBarrier c.path :: r.2)
  else
    (c, c.cache, [.awaitBarrier c.path])

/-- `Collection.set(data)`: `await this.updateDatabase()` — which PUTs the
CURRENT (pre-assignment) cache — then assign `this.cache = data`.  No
barrier is awaited and the PUT response is never examined. -/
def Collection.set (c : Collection) (data : JsValue) : Collection × List Action :=
  let tr := Collection.updateDatabase c
  (⟨c.path, some data, c.expiresAt, c.readyPreResolved⟩, tr)

/-- `Collection` constructor: store `path` and the back-reference, then if
`cacheData` is truthy install it, set `expiresAt = Date.now() + db.ttl` and
store `Promise.resolve()` in `this.ready`; otherwise leave `cache` and
`expiresAt` undefined and store the started `this.updateCache()` call in
`this.ready` (run to completion here under the quiescent semantics). -/
def Collection.construct (path : String) (db : RealTimeDB) (remote : Remote)
    (now : Int) (cacheData : Option JsValue) : Collection × List Action :=
  if truthy cacheData then
    (⟨path, cacheData, some (now + db.ttl), true⟩, [])
  else
    Collection.updateCache db remote now ⟨path, none, none, false⟩

/-- `objectToCollections(object, db)`: for each own key of the object, in
order, build `new Collection(key, db, object[key])` — note `const path =
key;`, the bare child key — and store it in the map under that key. -/
def objectToCollections (object : List (String × JsValue)) (db : RealTimeDB)
    (remote : Remote) (now : Int) :
    List (String × Collection) × List Action :=
  match object with
  | [] => ([], [])
  | (key, cacheData) :: rest =>
      let path := key
      let r := Collection.construct path db remote now (some cacheData)
      let rs := objectToCollections rest db remote now
      ((path, r.1) :: rs.1, r.2 ++ rs.2)

/-- `RealTimeDB.initialize` (the source method name): GET the root path ""
(with `shallow: true`), `JSON.parse` the body BEFORE the status check, and
on a non-200 status throw the error selected by the status switch.  The
thrown error rejects `initialize`'s own (unobserved) promise; crucially
`readyResolver` is never called and `readyPromise` has no reject handler,
so the barrier stays `pending`.  On 200 the barrier is resolved. -/
def RealTimeDB.initValidation (db : RealTimeDB) (remote : Remote) :
    RealTimeDB × Option InitError × List Action :=
  let response := remote ""
  let body := response.body
  if response.status ≠ 200 then
    let err : InitError :=
      match response.status with
      | 404 => .notFound db.databaseName
      | 401 => .permissionDenied db.databaseName
      | _ => .validation body
    (db, some err, [.getReq ""])
  else
    (⟨db.databaseName, db.databaseSecret, db.ttl, .resolved,
      db.cachedCollections⟩, none, [.getReq ""])

/-- `RealTimeDB` constructor (`new RealTimeDB(name, secret, ttl = 300000)`):
trim name and secret, start with an empty `cachedCollections`, create the
pending `readyPromise` capturing only its resolver, and start
`this.initialize()` (run to completion here). -/
def RealTimeDB.construct (name secret : String) (ttl : Int) (remote : Remote) :
    RealTimeDB × Option InitError × List Action :=
  RealTimeDB.initValidation
    ⟨name.trim, secret.trim, ttl, .pending, []⟩ remote

/-- `RealTimeDB.onReady`: awaits `readyPromise`, i.e. resolves exactly when
the barrier has been resolved. -/
def RealTimeDB.onReadyResolves (db : RealTimeDB) : Bool :=
  match db.readyBarrier with
  | .resolved => true
  | _ => false

/-- `RealTimeDB.get(path)`: if `cachedCollections` has an entry for `path`
return it immediately (no request, no barrier await); otherwise GET `path`,
return `undefined` on a non-200 status, and on 200 build either
`objectToCollections(body, this)` (non-null object body) or the raw scalar
body, store it under `path` and return it.  Note: `readyPromise` is never
awaited by this method. -/
def RealTimeDB.get (db : RealTimeDB) (path : String) (remote : Remote)
    (now : Int) : RealTimeDB × Option DBEntry × List Action :=
  match lookupEntry db.cachedCollections path with
  | some entry => (db, some entry, [])
  | none =>
    let response := remote path
    if response.status ≠ 200 then
      (db, none, [.getReq path])
    else
      match response.body with
      | .obj fields =>
          let r := objectToCollections fields db remote now
          let entry := DBEntry.colls r.1
          (⟨db.databaseName, db.databaseSecret, db.ttl, db.readyBarrier,
            mapSet db.cachedCollections path entry⟩,
           some entry, .getReq path :: r.2)
      | body =>
          let entry := DBEntry.data body
          (⟨db.databaseName, db.databaseSecret, db.ttl, db.readyBarrier,
            mapSet db.cachedCollections path entry⟩,
           some entry, [.getReq path])

/-- A sequence of `Collection.get` calls without `forceRefresh`, threading
the node state; each call may occur at a different time and see a different
remote state.  Returns the final node, the list of returned values and the
concatenated trace. -/
def Collection.getSeq (db : RealTimeDB) (c : Collection)
    (calls : List (Remote × Int)) :
    Collection × List (Option JsValue) × List Action :=
  match calls with
  | [] => (c, [], [])
  | (remote, now) :: rest =>
      let r := Collection.get db remote now c false
      let rs := Collection.getSeq db r.1 rest
      (rs.1, r.2.1 :: rs.2.1, r.2.2 ++ rs.2.2)

/-- Test for the `typeof body === "object" && body !== null` branch of
`RealTimeDB.get`: `true` exactly for non-null objects. -/
def isObj : JsValue → Bool
  | .obj _ => true
  | _ => false

/-- Relation between one direct child `(key, subValue)` of an object body
and the corresponding entry `(mapKey, node)` produced by
`objectToCollections`: the map key and the node's `path` are both the bare
child key; a truthy sub-value is installed as the node's cache with
`expiresAt = now + ttl` and a pre-resolved barrier; a falsy sub-value is
discarded and the node is the result of an immediate `updateCache` on a
blank node for that key. -/
def childNodeSpec (db : RealTimeDB) (remote : Remote) (now : Int)
    (kv : String × JsValue) (kc : String × Collection) : Prop :=
  kc.1 = kv.1 ∧ kc.2.path = kv.1 ∧
  (truthy (some kv.2) = true →
    kc.2.cache = some kv.2 ∧ kc.2.expiresAt = some (now + db.ttl) ∧
    kc.2.readyPreResolved = true) ∧
  (truthy (some kv.2) = false →
    kc.2 = (Collection.updateCache db remote now ⟨kv.1, none, none, false⟩).1 ∧
    kc.2.readyPreResolved = false)

/-- Remote store whose root path fails validation with status 404 while
every other path answers 200 with the scalar string body "hi". -/
def remoteRoot404 : Remote := fun path =>
  if path = "" then ⟨404, JsValue.null⟩ else ⟨200, JsValue.str "hi"⟩

/-- Controller constructed against `remoteRoot404`: its validation fails,
so its readiness barrier is still pending. -/
def dbUnready : RealTimeDB := (RealTimeDB.construct "n" "s" 300000 remoteRoot404).1

/-- A controller whose validation has succeeded and whose root cache is
empty. -/
def dbReady : RealTimeDB := ⟨"n", "s", 300000, .resolved, []⟩

/-- Remote store where path "users" holds the object
`{"steve": {"name": "Steve"}}` and every other path a scalar. -/
def remoteUsers : Remote := fun path =>
  if path = "users" then
    ⟨200, JsValue.obj [("steve", JsValue.obj [("name", JsValue.str "Steve")])]⟩
  else ⟨200, JsValue.str "x"⟩

/-- Remote store answering every GET with the scalar 5. -/
def remoteCounter : Remote := fun _ => ⟨200, JsValue.num 5⟩

/-- Remote store answering every GET with status 500. -/
def remoteFail500 : Remote := fun _ => ⟨500, JsValue.null⟩

/-- Direct children of an object body mixing a truthy sub-value ("steve")
with a falsy one ("count" holding 0). -/
def usersMixedFields : List (String × JsValue) :=
  [("steve", JsValue.obj [("name", JsValue.str "Steve")]), ("count", JsValue.num 0)]

/-- Remote store where path "users" holds the object with children
`usersMixedFields` and every other path a scalar. -/
def remoteUsersMixed : Remote := fun path =>
  if path = "users" then ⟨200, JsValue.obj usersMixedFields⟩
  else ⟨200, JsValue.str "x"⟩

/-- A refresh issues exactly one GET request, whether it succeeds or not. -/
theorem countGetReq_updateCache (db : RealTimeDB) (remote : Remote) (now : Int)
    (c : Collection) : countGetReq (Collection.updateCache db remote now c).2 = 1 := by
  by_cases h : (remote c.path).status = 200 <;>
    simp [Collection.updateCache, h, countGetReq, List.countP_cons, List.countP_nil]

/-- A refresh never awaits a barrier. -/
theorem countAwait_updateCache (db : RealTimeDB) (remote : Remote) (now : Int)
    (c : Collection) : countAwait (Collection.updateCache db remote now c).2 = 0 := by
  by_cases h : (remote c.path).status = 200 <;>
    simp [Collection.updateCache, h, countAwait, List.countP_cons, List.countP_nil]

/-- The node constructor never awaits a barrier. -/
theorem countAwait_construct (path : String) (db : RealTimeDB) (remote : Remote)
    (now : Int) (cacheData : Option JsValue) :
    countAwait (Collection.construct path db remote now cacheData).2 = 0 := by
  unfold Collection.construct
  split
  · rfl
  · exact countAwait_updateCache db remote now _

/-- Materializing a subtree never awaits a barrier. -/
theorem countAwait_objectToCollections (db : RealTimeDB) (remote : Remote)
    (now : Int) : ∀ object : List (String × JsValue),
    countAwait (objectToCollections object db remote now).2 = 0 := by
  intro object
  induction object with
  | nil => rfl
  | cons kv rest ih =>
      unfold objectToCollections
      simp only [countAwait, List.countP_append] at *
      rw [ih]
      have h := countAwait_construct kv.1 db remote now (some kv.2)
      simp only [countAwait] at h
      simp [h]

/-- `Map.set` followed by `Map.get` at the same key finds the new entry. -/
theorem lookupEntry_mapSet (path : String) (entry : DBEntry) :
    ∀ m : List (String × DBEntry), lookupEntry (mapSet m path entry) path = some entry := by
  intro m
  induction m with
  | nil => simp [mapSet, lookupEntry]
  | cons kv rest ih =>
      unfold mapSet
      by_cases h : kv.1 = path
      · simp [h, lookupEntry]
      · simp [h, lookupEntry, ih]

/-- A `get` on a node whose `expiresAt` is still `undefined` takes the
non-refresh branch: `Date.now() > undefined` is `false`. -/
theorem get_of_expiresAt_none (db : RealTimeDB) (remote : Remote) (now : Int)
    (c : Collection) (h : c.expiresAt = none) :
    Collection.get db remote now c false = (c, c.cache, [Action.awaitBarrier c.path]) := by
  unfold Collection.get
  rw [h]
  rfl

/-- Constructor equation for a truthy supplied value. -/
theorem construct_truthy (path : String) (db : RealTimeDB) (remote : Remote)
    (now : Int) (cacheData : Option JsValue) (h : truthy cacheData = true) :
    Collection.construct path db remote now cacheData =
      (⟨path, cacheData, some (now + db.ttl), true⟩, []) := by
  simp [Collection.construct, h]

/-- Constructor equation for a falsy (or absent) supplied value: the value
is discarded and an immediate refresh of a blank node runs instead. -/
theorem construct_falsy (path : String) (db : RealTimeDB) (remote : Remote)
    (now : Int) (cacheData : Option JsValue) (h : truthy cacheData = false) :
    Collection.construct path db remote now cacheData =
      Collection.updateCache db remote now ⟨path, none, none, false⟩ := by
  simp [Collection.construct, h]

/-- A refresh never changes the node's path. -/
theorem updateCache_path (db : RealTimeDB) (remote : Remote) (now : Int)
    (c : Collection) : (Collection.updateCache db remote now c).1.path = c.path := by
  by_cases h : (remote c.path).status = 200 <;> simp [Collection.updateCache, h]

/-- A refresh never changes which promise the constructor stored in
`this.ready`. -/
theorem updateCache_ready (db : RealTimeDB) (remote : Remote) (now : Int)
    (c : Collection) :
    (Collection.updateCache db remote now c).1.readyPreResolved = c.readyPreResolved := by
  by_cases h : (remote c.path).status = 200 <;> simp [Collection.updateCache, h]

/-- Cons equation for `objectToCollections`. -/
theorem objectToCollections_cons (db : RealTimeDB) (remote : Remote) (now : Int)
    (kv : String × JsValue) (rest : List (String × JsValue)) :
    objectToCollections (kv :: rest) db remote now =
      ((kv.1, (Collection.construct kv.1 db remote now (some kv.2)).1) ::
         (objectToCollections rest db remote now).1,
       (Collection.construct kv.1 db remote now (some kv.2)).2 ++
         (objectToCollections rest db remote now).2) := by
  cases kv
  rfl

/-- Each entry built by `objectToCollections` satisfies `childNodeSpec`
against its source child. -/
theorem childNodeSpec_construct (db : RealTimeDB) (remote : Remote) (now : Int)
    (kv : String × JsValue) :
    childNodeSpec db remote now kv
      (kv.1, (Collection.construct kv.1 db remote now (some kv.2)).1) := by
  by_cases h : truthy (some kv.2) = true
  · rw [construct_truthy kv.1 db remote now (some kv.2) h]
    exact ⟨rfl, rfl, fun _ => ⟨rfl, rfl, rfl⟩, fun hf => by rw [h] at hf; cases hf⟩
  · have h' : truthy (some kv.2) = false := by
      cases hb : truthy (some kv.2)
      · rfl
      · exact absurd hb h
    rw [construct_falsy kv.1 db remote now (some kv.2) h']
    exact ⟨rfl, updateCache_path db remote now _, fun ht => absurd ht h,
      fun _ => ⟨rfl, updateCache_ready db remote now _⟩⟩

/-- The constructor fetches nothing when the supplied value is truthy and
exactly once otherwise. -/
theorem countGetReq_construct (path : String) (db : RealTimeDB) (remote : Remote)
    (now : Int) (cacheData : Option JsValue) :
    countGetReq (Collection.construct path db remote now cacheData).2 =
      (if truthy cacheData then 0 else 1) := by
  by_cases h : truthy cacheData = true
  · rw [construct_truthy path db remote now cacheData h]
    simp [h, countGetReq]
  · have h' : truthy cacheData = false := by
      cases hb : truthy cacheData
      · rfl
      · exact absurd hb h
    rw [construct_falsy path db remote now cacheData h']
    simp [h', countGetReq_updateCache]

/-- `objectToCollections` keeps exactly the direct child keys, in order. -/
theorem objectToCollections_keys (db : RealTimeDB) (remote : Remote) (now : Int) :
    ∀ fields : List (String × JsValue),
    (objectToCollections fields db remote now).1.map Prod.fst = fields.map Prod.fst := by
  intro fields
  induction fields with
  | nil => rfl
  | cons kv rest ih =>
      rw [objectToCollections_cons]
      simp [ih]

/-- Pointwise characterization of `objectToCollections`. -/
theorem objectToCollections_children (db : RealTimeDB) (remote : Remote) (now : Int) :
    ∀ fields : List (String × JsValue),
    List.Forall₂ (childNodeSpec db remote now) fields
      (objectToCollections fields db remote now).1 := by
  intro fields
  induction fields with
  | nil => exact List.Forall₂.nil
  | cons kv rest ih =>
      rw [objectToCollections_cons]
      exact List.Forall₂.cons (childNodeSpec_construct db remote now kv) ih

/-- `objectToCollections` issues one GET per falsy child value and none for
truthy ones. -/
theorem objectToCollections_count (db : RealTimeDB) (remote : Remote) (now : Int) :
    ∀ fields : List (String × JsValue),
    countGetReq (objectToCollections fields db remote now).2 =
      fields.countP (fun kv => !truthy (some kv.2)) := by
  intro fields
  induction fields with
  | nil => rfl
  | cons kv rest ih =>
      rw [objectToCollections_cons]
      simp only [countGetReq, List.countP_append, List.countP_cons] at *
      rw [ih]
      have hc := countGetReq_construct kv.1 db remote now (some kv.2)
      simp only [countGetReq] at hc
      rw [hc]
      cases h : truthy (some kv.2)
      · simp [h]
        omega
      · simp [h]

/-- `RealTimeDB.get` on a cache hit returns the stored entry with no
request and no barrier await. -/
theorem realTimeDB_get_hit (db : RealTimeDB) (path : String) (remote : Remote)
    (now : Int) (entry : DBEntry)
    (hhit : lookupEntry db.cachedCollections path = some entry) :
    RealTimeDB.get db path remote now = (db, some entry, []) := by
  unfold RealTimeDB.get
  rw [hhit]

/-- `RealTimeDB.get` on a cache miss answered 200 with a non-null object
body materializes the subtree, stores it and returns it. -/
theorem realTimeDB_get_miss_obj (db : RealTimeDB) (path : String)
    (fields : List (String × JsValue)) (remote : Remote) (now : Int)
    (hmiss : lookupEntry db.cachedCollections path = none)
    (hresp : remote path = ⟨200, JsValue.obj fields⟩) :
    RealTimeDB.get db path remote now =
      (⟨db.databaseName, db.databaseSecret, db.ttl, db.readyBarrier,
        mapSet db.cachedCollections path
          (DBEntry.colls (objectToCollections fields db remote now).1)⟩,
       some (DBEntry.colls (objectToCollections fields db remote now).1),
       Action.getReq path :: (objectToCollections fields db remote now).2) := by
  unfold RealTimeDB.get
  rw [hmiss, hresp]
  rfl

/-- `RealTimeDB.get` on a cache miss answered 200 with a scalar body
stores the raw scalar under the path and returns it. -/
theorem realTimeDB_get_miss_scalar (db : RealTimeDB) (path : String)
    (remote : Remote) (now : Int) (b : JsValue)
    (hmiss : lookupEntry db.cachedCollections path = none)
    (hresp : remote path = ⟨200, b⟩) (hb : isObj b = false) :
    RealTimeDB.get db path remote now =
      (⟨db.databaseName, db.databaseSecret, db.ttl, db.readyBarrier,
        mapSet db.cachedCollections path (DBEntry.data b)⟩,
       some (DBEntry.data b), [Action.getReq path]) := by
  unfold RealTimeDB.get
  rw [hmiss, hresp]
  cases b with
  | obj fields => simp [isObj] at hb
  | str s => rfl
  | num n => rfl
  | bool bb => rfl
  | null => rfl

/-- Prepending the barrier await does not change the GET count. -/
theorem countGetReq_cons_await (s : String) (tr : List Action) :
    countGetReq (Action.awaitBarrier s :: tr) = countGetReq tr := by
  simp [countGetReq, List.countP_cons]

/-- Claim C1 (code_bug evaluation): at a node whose cached value is 1,
`set(2)` PUTs the serialized OLD value 1 — `updateDatabase` runs before
`this.cache = data` and serializes `this.cache` — never examines the PUT
response status (the model's `Collection.set` does not even consume the
remote state, mirroring that `updateDatabase` discards the response), and
unconditionally installs 2 locally.  The claim's "write v remotely, surface
WriteError on failure, keep the old local value" behavior is absent. -/
theorem c1_set_puts_old_value_and_never_fails :
    Collection.set ⟨"users", some (JsValue.num 1), some 1000, true⟩ (JsValue.num 2) =
      (⟨"users", some (JsValue.num 2), some 1000, true⟩,
       [Action.putReq "users" (some (JsValue.num 1))]) := rfl

/-- Claim C6 (confirmed): on a node whose `expiresAt` is set, a `get` at a
time strictly past `expiresAt`, or with `forceRefresh`, performs exactly one
refresh (one GET) and returns the post-refresh cache; a `get` at a time not
past `expiresAt` and without `forceRefresh` performs no refresh and returns
the cached value and node unchanged. -/
theorem c6_ttl_gating (db : RealTimeDB) (remote : Remote) (now t : Int)
    (c : Collection) (flag : Bool) (h : c.expiresAt = some t) :
    ((now > t ∨ flag = true) →
      Collection.get db remote now c flag =
        ((Collection.updateCache db remote now c).1,
         (Collection.updateCache db remote now c).1.cache,
         Action.awaitBarrier c.path :: (Collection.updateCache db remote now c).2) ∧
      countGetReq (Collection.get db remote now c flag).2.2 = 1) ∧
    ((now ≤ t ∧ flag = false) →
      Collection.get db remote now c flag = (c, c.cache, [Action.awaitBarrier c.path]) ∧
      countGetReq (Collection.get db remote now c flag).2.2 = 0) := by
  constructor
  · intro hor
    have hcond : (jsGt now c.expiresAt || flag) = true := by
      rcases hor with hgt | hflag
      · simp [jsGt, h, hgt]
      · simp [hflag]
    have hget : Collection.get db remote now c flag =
        ((Collection.updateCache db remote now c).1,
         (Collection.updateCache db remote now c).1.cache,
         Action.awaitBarrier c.path :: (Collection.updateCache db remote now c).2) := by
      unfold Collection.get
      rw [hcond]
      rfl
    refine ⟨hget, ?_⟩
    rw [hget]
    rw [countGetReq_cons_await]
    exact countGetReq_updateCache db remote now c
  · intro hand
    have hcond : (jsGt now c.expiresAt || flag) = false := by
      simp [jsGt, h, hand.2]
      omega
    have hget : Collection.get db remote now c flag =
        (c, c.cache, [Action.awaitBarrier c.path]) := by
      unfold Collection.get
      rw [hcond]
      rfl
    exact ⟨hget, by rw [hget]; rfl⟩

/-- Witness for C6: a node with value 1 expiring at time 5, read at time 10
against a remote now holding 5, refreshes exactly once and returns 5. -/
theorem c6_ttl_gating_witness :
    (⟨"p", some (JsValue.num 1), some 5, true⟩ : Collection).expiresAt = some 5 ∧
    ((10 : Int) > 5 ∨ false = true) ∧
    Collection.get dbReady remoteCounter 10 ⟨"p", some (JsValue.num 1), some 5, true⟩ false =
      (⟨"p", some (JsValue.num 5), some 300010, true⟩, some (JsValue.num 5),
       [Action.awaitBarrier "p", Action.getReq "p", Action.writeCache "p" (JsValue.num 5),
        Action.writeExpires "p" 300010]) ∧
    countGetReq (Collection.get dbReady remoteCounter 10
      ⟨"p", some (JsValue.num 1), some 5, true⟩ false).2.2 = 1 :=
  ⟨rfl, Or.inl (by decide),
   ((c6_ttl_gating dbReady remoteCounter 10 5 ⟨"p", some (JsValue.num 1), some 5, true⟩
      false rfl).1 (Or.inl (by decide))).1,
   ((c6_ttl_gating dbReady remoteCounter 10 5 ⟨"p", some (JsValue.num 1), some 5, true⟩
      false rfl).1 (Or.inl (by decide))).2⟩

/-- Claim C7 (code_bug evaluation): the constructor guards the supplied
value with JavaScript truthiness (`if (cacheData)`), so a supplied falsy
value — here 0 — is DISCARDED: the node fetches remotely (installing the
remote value 5), `expiresAt` comes from that fetch, and `this.ready` holds
the tracked fetch rather than `Promise.resolve()`.  The claim's immediate
installation with no remote fetch holds only for truthy values. -/
theorem c7_falsy_preseed_discarded :
    Collection.construct "score" dbReady remoteCounter 100 (some (JsValue.num 0)) =
      (⟨"score", some (JsValue.num 5), some 300100, false⟩,
       [Action.getReq "score", Action.writeCache "score" (JsValue.num 5),
        Action.writeExpires "score" 300100]) := rfl

/-- Claim C8 (confirmed): a refresh whose GET returns a non-200 status
leaves the node completely unchanged and its trace holds only the request —
no field write and no error (the return type carries no error channel);
on a 200 response the cache is replaced by the parsed body and `expiresAt`
becomes now + ttl, with the `writeCache` action strictly before the
`writeExpires` action in the trace. -/
theorem c8_refresh_silent_noop (db : RealTimeDB) (remote : Remote) (now : Int)
    (c : Collection) :
    ((remote c.path).status ≠ 200 →
      Collection.updateCache db remote now c = (c, [Action.getReq c.path])) ∧
    ((remote c.path).status = 200 →
      Collection.updateCache db remote now c =
        (⟨c.path, some (remote c.path).body, some (now + db.ttl), c.readyPreResolved⟩,
         [Action.getReq c.path, Action.writeCache c.path (remote c.path).body,
          Action.writeExpires c.path (now + db.ttl)])) := by
  constructor
  · intro h
    simp [Collection.updateCache, h]
  · intro h
    simp [Collection.updateCache, h]

/-- Witness for C8: a 500 response leaves the node untouched; a 200
response with body 5 installs 5 and the new expiry, writes in order. -/
theorem c8_refresh_silent_noop_witness :
    (remoteFail500 "p").status ≠ 200 ∧
    Collection.updateCache dbReady remoteFail500 7 ⟨"p", some (JsValue.num 1), some 3, true⟩ =
      (⟨"p", some (JsValue.num 1), some 3, true⟩, [Action.getReq "p"]) ∧
    (remoteCounter "p").status = 200 ∧
    Collection.updateCache dbReady remoteCounter 7 ⟨"p", some (JsValue.num 1), some 3, true⟩ =
      (⟨"p", some (JsValue.num 5), some 300007, true⟩,
       [Action.getReq "p", Action.writeCache "p" (JsValue.num 5),
        Action.writeExpires "p" 300007]) :=
  ⟨by decide,
   (c8_refresh_silent_noop dbReady remoteFail500 7
     ⟨"p", some (JsValue.num 1), some 3, true⟩).1 (by decide),
   by decide,
   (c8_refresh_silent_noop dbReady remoteCounter 7
     ⟨"p", some (JsValue.num 1), some 3, true⟩).2 (by decide)⟩

/-- Equation for a refresh whose GET fails. -/
theorem updateCache_fail (db : RealTimeDB) (remote : Remote) (now : Int)
    (c : Collection) (h : (remote c.path).status ≠ 200) :
    Collection.updateCache db remote now c = (c, [Action.getReq c.path]) := by
  simp [Collection.updateCache, h]

/-- Equation for a `get` that sees a stale node (or `forceRefresh`). -/
theorem get_stale (db : RealTimeDB) (remote : Remote) (now : Int)
    (c : Collection) (flag : Bool) (h : (jsGt now c.expiresAt || flag) = true) :
    Collection.get db remote now c flag =
      ((Collection.updateCache db remote now c).1,
       (Collection.updateCache db remote now c).1.cache,
       Action.awaitBarrier c.path :: (Collection.updateCache db remote now c).2) := by
  unfold Collection.get
  rw [h]
  rfl

/-- Equation for constructing a node with a falsy (or missing) value whose
immediate fetch fails: both fields stay undefined. -/
theorem construct_falsy_fail (path : String) (db : RealTimeDB) (remote : Remote)
    (now : Int) (cacheData : Option JsValue) (hcd : truthy cacheData = false)
    (h : (remote path).status ≠ 200) :
    Collection.construct path db remote now cacheData =
      (⟨path, none, none, false⟩, [Action.getReq path]) := by
  rw [construct_falsy path db remote now cacheData hcd]
  exact updateCache_fail db remote now ⟨path, none, none, false⟩ h

/-- Claim C2 (counterexample): a controller whose validation failed with
404 — so its readiness barrier is unsatisfied (pending forever) — still has
`get("users")` resolve, successfully, with the fetched value, and its trace
contains no barrier await.  This refutes "no get or set call resolves
before the corresponding readiness barrier is satisfied" and "the
controller's get awaits the controller's own readiness barrier before doing
anything else". -/
theorem c2_counterexample_unready_get_resolves :
    dbUnready.readyBarrier = BarrierState.pending ∧
    (RealTimeDB.get dbUnready "users" remoteRoot404 0).2.1 =
      some (DBEntry.data (JsValue.str "hi")) ∧
    countAwait (RealTimeDB.get dbUnready "users" remoteRoot404 0).2.2 = 0 :=
  ⟨rfl, rfl, rfl⟩

/-- Claim C2 (amended): only a node's `get` awaits a readiness barrier —
its trace starts with the await of the node's own barrier.  The
controller's `get` and a node's `set` never await any barrier (their traces
contain no `awaitBarrier` action), so they can resolve while the
controller's readiness barrier is unsatisfied. -/
theorem c2_amended_only_node_get_gated (db : RealTimeDB) (path : String)
    (remote : Remote) (now : Int) (c : Collection) (flag : Bool) (data : JsValue) :
    countAwait (RealTimeDB.get db path remote now).2.2 = 0 ∧
    countAwait (Collection.set c data).2 = 0 ∧
    (Collection.get db remote now c flag).2.2.head? =
      some (Action.awaitBarrier c.path) := by
  refine ⟨?_, rfl, ?_⟩
  · cases hl : lookupEntry db.cachedCollections path with
    | some entry =>
        rw [realTimeDB_get_hit db path remote now entry hl]
        rfl
    | none =>
        by_cases hs : (remote path).status = 200
        · cases hb : (remote path).body with
          | obj fields =>
              have hresp : remote path = ⟨200, JsValue.obj fields⟩ := by
                rw [← hs, ← hb]
              rw [realTimeDB_get_miss_obj db path fields remote now hl hresp]
              have h0 := countAwait_objectToCollections db remote now fields
              simp [countAwait, List.countP_cons] at *
              exact h0
          | str s =>
              have hresp : remote path = ⟨200, JsValue.str s⟩ := by rw [← hs, ← hb]
              rw [realTimeDB_get_miss_scalar db path remote now (JsValue.str s) hl hresp rfl]
              rfl
          | num n =>
              have hresp : remote path = ⟨200, JsValue.num n⟩ := by rw [← hs, ← hb]
              rw [realTimeDB_get_miss_scalar db path remote now (JsValue.num n) hl hresp rfl]
              rfl
          | bool b =>
              have hresp : remote path = ⟨200, JsValue.bool b⟩ := by rw [← hs, ← hb]
              rw [realTimeDB_get_miss_scalar db path remote now (JsValue.bool b) hl hresp rfl]
              rfl
          | null =>
              have hresp : remote path = ⟨200, JsValue.null⟩ := by rw [← hs, ← hb]
              rw [realTimeDB_get_miss_scalar db path remote now JsValue.null hl hresp rfl]
              rfl
        · unfold RealTimeDB.get
          rw [hl]
          simp [hs, countAwait]
  · cases hcond : (jsGt now c.expiresAt || flag)
    · unfold Collection.get
      rw [hcond]
      rfl
    · unfold Collection.get
      rw [hcond]
      rfl

/-- Claim C9 (confirmed): after a failed refresh at a time past expiry, the
node's `expiresAt` (and cache) are unchanged, so the node is still stale at
any later time past the old expiry and the very next plain `get` performs
another refresh (exactly one GET). -/
theorem c9_failed_refresh_stays_expired (db : RealTimeDB) (remote remote2 : Remote)
    (now now2 t : Int) (c : Collection)
    (h1 : c.expiresAt = some t) (h2 : (remote c.path).status ≠ 200) (h3 : now2 > t) :
    (Collection.updateCache db remote now c).1.expiresAt = some t ∧
    (Collection.updateCache db remote now c).1.cache = c.cache ∧
    jsGt now2 (Collection.updateCache db remote now c).1.expiresAt = true ∧
    countGetReq (Collection.get db remote2 now2
      (Collection.updateCache db remote now c).1 false).2.2 = 1 := by
  have hupd := updateCache_fail db remote now c h2
  rw [hupd]
  have hcond : (jsGt now2 c.expiresAt || false) = true := by
    simp [jsGt, h1, h3]
  refine ⟨h1, rfl, by simp [jsGt, h1, h3], ?_⟩
  rw [get_stale db remote2 now2 c false hcond, countGetReq_cons_await]
  exact countGetReq_updateCache db remote2 now2 c

/-- Witness for C9: value 1 expired at 5; refresh at 10 gets a 500 and
changes nothing; a plain `get` at 11 refreshes again (one GET). -/
theorem c9_failed_refresh_stays_expired_witness :
    (⟨"p", some (JsValue.num 1), some 5, true⟩ : Collection).expiresAt = some 5 ∧
    (remoteFail500 "p").status ≠ 200 ∧
    ((11 : Int) > 5) ∧
    ((Collection.updateCache dbReady remoteFail500 10
        ⟨"p", some (JsValue.num 1), some 5, true⟩).1.expiresAt = some 5 ∧
      (Collection.updateCache dbReady remoteFail500 10
        ⟨"p", some (JsValue.num 1), some 5, true⟩).1.cache = some (JsValue.num 1) ∧
      jsGt 11 (Collection.updateCache dbReady remoteFail500 10
        ⟨"p", some (JsValue.num 1), some 5, true⟩).1.expiresAt = true ∧
      countGetReq (Collection.get dbReady remoteCounter 11
        (Collection.updateCache dbReady remoteFail500 10
          ⟨"p", some (JsValue.num 1), some 5, true⟩).1 false).2.2 = 1) :=
  ⟨rfl, by decide, by decide,
   c9_failed_refresh_stays_expired dbReady remoteFail500 remoteCounter 10 11 5
     ⟨"p", some (JsValue.num 1), some 5, true⟩ rfl (by decide) (by decide)⟩

/-- Claim C10 (confirmed): a node constructed without a value whose initial
fetch fails has `cache` and `expiresAt` both still undefined; the staleness
test `Date.now() > expiresAt` is false at every time; and any sequence of
plain `get` calls — whatever the remote looks like by then — returns the
absent value every time, issues no request, and leaves the node unchanged
(each call's whole trace is just the barrier await). -/
theorem c10_failed_initial_fetch_inert (db db2 : RealTimeDB) (remote : Remote)
    (now : Int) (path : String) (h : (remote path).status ≠ 200) :
    (Collection.construct path db remote now none).1 =
      (⟨path, none, none, false⟩ : Collection) ∧
    (∀ t : Int, jsGt t (Collection.construct path db remote now none).1.expiresAt = false) ∧
    (∀ calls : List (Remote × Int),
      Collection.getSeq db2 (Collection.construct path db remote now none).1 calls =
        ((Collection.construct path db remote now none).1,
         calls.map fun _ => none,
         calls.map fun _ => Action.awaitBarrier path)) := by
  have hc : (Collection.construct path db remote now none).1 =
      (⟨path, none, none, false⟩ : Collection) := by
    rw [construct_falsy_fail path db remote now none rfl h]
  refine ⟨hc, ?_, ?_⟩
  · intro t
    rw [hc]
    rfl
  · intro calls
    rw [hc]
    induction calls with
    | nil => rfl
    | cons call rest ih =>
        cases call with
        | mk rm nw =>
            have hstep := get_of_expiresAt_none db2 rm nw ⟨path, none, none, false⟩ rfl
            simp only [Collection.getSeq, hstep, ih]
            rfl

/-- Witness for C10: node "p" built against a 500 remote; two later plain
gets against a healthy remote return the absent value, fetch nothing and
leave the node unchanged. -/
theorem c10_failed_initial_fetch_inert_witness :
    (remoteFail500 "p").status ≠ 200 ∧
    Collection.getSeq dbReady (Collection.construct "p" dbReady remoteFail500 0 none).1
        [(remoteCounter, 5), (remoteCounter, 99)] =
      ((Collection.construct "p" dbReady remoteFail500 0 none).1, [none, none],
       [Action.awaitBarrier "p", Action.awaitBarrier "p"]) :=
  ⟨by decide,
   (c10_failed_initial_fetch_inert dbReady dbReady remoteFail500 0 "p" (by decide)).2.2
     [(remoteCounter, 5), (remoteCounter, 99)]⟩

/-- Claim C3 (counterexample): fetching "users" whose body is
`{"steve": {"name": "Steve"}}` yields one pre-seeded node under key
"steve" whose `path` field is the bare child key "steve" — not the full
remote path "users/steve" the claim requires (and "steve" and
"users/steve" are distinct paths, so the node's own refresh would target
the wrong location). -/
theorem c3_counterexample_child_path_not_full :
    (RealTimeDB.get dbReady "users" remoteUsers 10).2.1 =
      some (DBEntry.colls [("steve",
        ⟨"steve", some (JsValue.obj [("name", JsValue.str "Steve")]), some 300010, true⟩)]) ∧
    ("steve" : String) ≠ "users" ++ "/" ++ "steve" :=
  ⟨rfl, by decide⟩

/-- Claim C3 (amended): a successful object-shaped `get` returns and caches
one node per direct child key, keyed in order; each node's `path` field is
the BARE child key (not the full remote path); a node with a truthy
sub-value is pre-seeded with it (cache installed, expiry now + ttl, barrier
pre-resolved, no fetch), while a node with a falsy sub-value discards it
and immediately fetches the bare child key, so the whole call issues one
GET for the parent plus one GET per falsy child. -/
theorem c3_amended_children_keyed_by_bare_key (db : RealTimeDB) (path : String)
    (fields : List (String × JsValue)) (remote : Remote) (now : Int)
    (hmiss : lookupEntry db.cachedCollections path = none)
    (hresp : remote path = ⟨200, JsValue.obj fields⟩) :
    (RealTimeDB.get db path remote now).2.1 =
      some (DBEntry.colls (objectToCollections fields db remote now).1) ∧
    lookupEntry (RealTimeDB.get db path remote now).1.cachedCollections path =
      some (DBEntry.colls (objectToCollections fields db remote now).1) ∧
    (objectToCollections fields db remote now).1.map Prod.fst = fields.map Prod.fst ∧
    List.Forall₂ (childNodeSpec db remote now) fields
      (objectToCollections fields db remote now).1 ∧
    countGetReq (RealTimeDB.get db path remote now).2.2 =
      1 + fields.countP (fun kv => !truthy (some kv.2)) := by
  rw [realTimeDB_get_miss_obj db path fields remote now hmiss hresp]
  refine ⟨rfl,
    lookupEntry_mapSet path (DBEntry.colls (objectToCollections fields db remote now).1)
      db.cachedCollections,
    objectToCollections_keys db remote now fields,
    objectToCollections_children db remote now fields, ?_⟩
  have hcount := objectToCollections_count db remote now fields
  simp only [countGetReq, List.countP_cons] at hcount ⊢
  rw [hcount]
  simp
  omega

/-- Witness for C3 (amended): "users" holds a truthy child "steve" and a
falsy child "count"; the call issues two GETs — the parent plus one for the
falsy child. -/
theorem c3_amended_children_keyed_by_bare_key_witness :
    lookupEntry dbReady.cachedCollections "users" = none ∧
    remoteUsersMixed "users" = ⟨200, JsValue.obj usersMixedFields⟩ ∧
    lookupEntry (RealTimeDB.get dbReady "users" remoteUsersMixed 10).1.cachedCollections
      "users" =
      some (DBEntry.colls (objectToCollections usersMixedFields dbReady
        remoteUsersMixed 10).1) ∧
    countGetReq (RealTimeDB.get dbReady "users" remoteUsersMixed 10).2.2 =
      1 + usersMixedFields.countP (fun kv => !truthy (some kv.2)) :=
  ⟨rfl, rfl,
   (c3_amended_children_keyed_by_bare_key dbReady "users" usersMixedFields
     remoteUsersMixed 10 rfl rfl).2.1,
   (c3_amended_children_keyed_by_bare_key dbReady "users" usersMixedFields
     remoteUsersMixed 10 rfl rfl).2.2.2.2⟩

/-- Claim C4 (counterexample): a successful scalar `get` on "counter" DOES
add an entry for "counter" to the root cache (the source's
`cachedCollections.set(path, collection)` runs for scalars too), and the
repeated `get` returns the memoized scalar with an empty trace — no fresh
remote fetch — refuting "no entry is added" and "every repeated get issues
a fresh remote fetch". -/
theorem c4_counterexample_scalar_memoized :
    lookupEntry (RealTimeDB.get dbReady "counter" remoteCounter 0).1.cachedCollections
      "counter" = some (DBEntry.data (JsValue.num 5)) ∧
    RealTimeDB.get (RealTimeDB.get dbReady "counter" remoteCounter 0).1 "counter"
      remoteCounter 99 =
      ((RealTimeDB.get dbReady "counter" remoteCounter 0).1,
       some (DBEntry.data (JsValue.num 5)), []) :=
  ⟨rfl, rfl⟩

/-- Claim C4 (amended): a successful scalar `get` returns the scalar
directly AND memoizes it into the root cache exactly like object results,
so every repeated `get` on that path returns the stored scalar immediately
with no remote request. -/
theorem c4_amended_scalar_also_memoized (db : RealTimeDB) (path : String)
    (remote remote2 : Remote) (now now2 : Int) (b : JsValue)
    (hmiss : lookupEntry db.cachedCollections path = none)
    (hresp : remote path = ⟨200, b⟩) (hb : isObj b = false) :
    (RealTimeDB.get db path remote now).2.1 = some (DBEntry.data b) ∧
    lookupEntry (RealTimeDB.get db path remote now).1.cachedCollections path =
      some (DBEntry.data b) ∧
    RealTimeDB.get (RealTimeDB.get db path remote now).1 path remote2 now2 =
      ((RealTimeDB.get db path remote now).1, some (DBEntry.data b), []) := by
  rw [realTimeDB_get_miss_scalar db path remote now b hmiss hresp hb]
  have h2 : lookupEntry (mapSet db.cachedCollections path (DBEntry.data b)) path =
      some (DBEntry.data b) := lookupEntry_mapSet path (DBEntry.data b) db.cachedCollections
  exact ⟨rfl, h2, realTimeDB_get_hit _ path remote2 now2 _ h2⟩

/-- Witness for C4 (amended): the scalar 5 fetched once from "counter" is
memoized and served from the cache on the second call. -/
theorem c4_amended_scalar_also_memoized_witness :
    lookupEntry dbReady.cachedCollections "counter" = none ∧
    remoteCounter "counter" = ⟨200, JsValue.num 5⟩ ∧
    isObj (JsValue.num 5) = false ∧
    ((RealTimeDB.get dbReady "counter" remoteCounter 0).2.1 =
        some (DBEntry.data (JsValue.num 5)) ∧
      lookupEntry (RealTimeDB.get dbReady "counter" remoteCounter 0).1.cachedCollections
        "counter" = some (DBEntry.data (JsValue.num 5)) ∧
      RealTimeDB.get (RealTimeDB.get dbReady "counter" remoteCounter 0).1 "counter"
        remoteCounter 99 =
        ((RealTimeDB.get dbReady "counter" remoteCounter 0).1,
         some (DBEntry.data (JsValue.num 5)), [])) :=
  ⟨rfl, rfl, rfl,
   c4_amended_scalar_also_memoized dbReady "counter" remoteCounter remoteCounter 0 99
     (JsValue.num 5) rfl rfl rfl⟩

/-- Claim C5 (counterexample): when validation fails with 404, the error is
thrown on `initialize`'s own unobserved promise and carries the
not-found message, but the readiness barrier does NOT reject — it stays
pending — and a subsequent `get` on the never-ready controller still
succeeds, refuting both "the readiness barrier rejects with the
corresponding error" and "no subsequent get call on it succeeds". -/
theorem c5_counterexample_barrier_pending_and_get_succeeds :
    (RealTimeDB.construct "n" "s" 300000 remoteRoot404).2.1 =
      some (InitError.notFound ("n".trim)) ∧
    dbUnready.readyBarrier = BarrierState.pending ∧
    dbUnready.readyBarrier ≠ BarrierState.rejected (InitError.notFound ("n".trim)) ∧
    (RealTimeDB.get dbUnready "users" remoteRoot404 0).2.1 =
      some (DBEntry.data (JsValue.str "hi")) := by
  refine ⟨rfl, rfl, ?_, rfl⟩
  intro h
  rw [show dbUnready.readyBarrier = BarrierState.pending from rfl] at h
  exact BarrierState.noConfusion h

/-- Claim C5 (amended): if the validation request returns a non-200 status,
`initialize` throws the status-selected error (not-found for 404,
permission-denied for 401, validation with the raw body otherwise) on its
own unobserved promise; the readiness barrier is never resolved — it stays
pending, so `onReady` never fires — but it is never rejected either, and a
subsequent `get` does not consult the barrier and still succeeds on any
path the remote answers with 200. -/
theorem c5_amended_barrier_stays_pending (name secret : String) (ttl : Int)
    (remote : Remote) (h : (remote "").status ≠ 200)
    (path : String) (now : Int) (h2 : (remote path).status = 200) :
    (RealTimeDB.construct name secret ttl remote).1.readyBarrier =
      BarrierState.pending ∧
    (RealTimeDB.construct name secret ttl remote).1.onReadyResolves = false ∧
    (RealTimeDB.construct name secret ttl remote).2.1 =
      some (match (remote "").status with
        | 404 => InitError.notFound name.trim
        | 401 => InitError.permissionDenied name.trim
        | _ => InitError.validation (remote "").body) ∧
    ((RealTimeDB.get (RealTimeDB.construct name secret ttl remote).1
      path remote now).2.1).isSome = true := by
  have hcon : RealTimeDB.construct name secret ttl remote =
      (⟨name.trim, secret.trim, ttl, .pending, []⟩,
       some (match (remote "").status with
         | 404 => InitError.notFound name.trim
         | 401 => InitError.permissionDenied name.trim
         | _ => InitError.validation (remote "").body),
       [Action.getReq ""]) := by
    unfold RealTimeDB.construct RealTimeDB.initValidation
    simp [h]
  rw [hcon]
  refine ⟨rfl, rfl, rfl, ?_⟩
  cases hb : (remote path).body with
  | obj fields =>
      have hresp : remote path = ⟨200, JsValue.obj fields⟩ := by rw [← h2, ← hb]
      rw [realTimeDB_get_miss_obj ⟨name.trim, secret.trim, ttl, .pending, []⟩
        path fields remote now rfl hresp]
      rfl
  | str s =>
      have hresp : remote path = ⟨200, JsValue.str s⟩ := by rw [← h2, ← hb]
      rw [realTimeDB_get_miss_scalar ⟨name.trim, secret.trim, ttl, .pending, []⟩
        path remote now (JsValue.str s) rfl hresp rfl]
      rfl
  | num n =>
      have hresp : remote path = ⟨200, JsValue.num n⟩ := by rw [← h2, ← hb]
      rw [realTimeDB_get_miss_scalar ⟨name.trim, secret.trim, ttl, .pending, []⟩
        path remote now (JsValue.num n) rfl hresp rfl]
      rfl
  | bool b =>
      have hresp : remote path = ⟨200, JsValue.bool b⟩ := by rw [← h2, ← hb]
      rw [realTimeDB_get_miss_scalar ⟨name.trim, secret.trim, ttl, .pending, []⟩
        path remote now (JsValue.bool b) rfl hresp rfl]
      rfl
  | null =>
      have hresp : remote path = ⟨200, JsValue.null⟩ := by rw [← h2, ← hb]
      rw [realTimeDB_get_miss_scalar ⟨name.trim, secret.trim, ttl, .pending, []⟩
        path remote now JsValue.null rfl hresp rfl]
      rfl

/-- Witness for C5 (amended): root 404s, "users" answers 200; the
controller stays pending forever, carries the not-found error on the init
promise, and `get("users")` still resolves with a value. -/
theorem c5_amended_barrier_stays_pending_witness :
    (remoteRoot404 "").status ≠ 200 ∧
    (remoteRoot404 "users").status = 200 ∧
    ((RealTimeDB.construct "n" "s" 300000 remoteRoot404).1.readyBarrier =
      BarrierState.pending ∧
     (RealTimeDB.construct "n" "s" 300000 remoteRoot404).1.onReadyResolves = false ∧
     (RealTimeDB.construct "n" "s" 300000 remoteRoot404).2.1 =
       some (InitError.notFound ("n".trim)) ∧
     ((RealTimeDB.get (RealTimeDB.construct "n" "s" 300000 remoteRoot404).1
       "users" remoteRoot404 0).2.1).isSome = true) :=
  ⟨by decide, by decide,
   c5_amended_barrier_stays_pending "n" "s" 300000 remoteRoot404 (by decide)
     "users" 0 (by decide)⟩

end BlockBase
